import Mathlib

/-! Shallow embedding of the Soltrivia on-chain programs (question_bank and
reward_distributor).  Public keys are modelled as naturals, with 0 playing the
role of the default (all-zero) key of a freshly allocated account; u64/u32
fields are Nat, i64 timestamps are Int.  The clock is passed explicitly to
every instruction that reads it.  External value transfers (system program and
token program CPIs) move assets held outside the records modelled here; the
amounts an instruction transfers are returned explicitly where a claim needs
them.  The programs are built with overflow checks, so a u64 subtraction that
would underflow aborts the instruction; that abort is modelled as the
ArithmeticUnderflow error. -/

namespace QuestionBank

abbrev PK := Nat

inductive QuestionStatus
  | Pending
  | Approved
  | Rejected
deriving DecidableEq, Repr

inductive VoteType
  | Approve
  | Reject
deriving DecidableEq, Repr

inductive ReputationAction
  | QuestionSubmitted
  | QuestionApproved
  | QuestionRejected
  | VoteCast
deriving DecidableEq, Repr

inductive QuestionBankError
  | InvalidQuestionFormat
  | UnauthorizedCurator
  | AlreadyVoted
  | QuestionNotFound
  | InsufficientReputation
  | QuestionNotPending
  | CannotVoteOnOwnQuestion
  | InsufficientVotes
  | UnauthorizedAuthority
  | CuratorAlreadyExists
  | CuratorNotFound
  | CannotRemoveAuthority
deriving DecidableEq, Repr

structure QuestionData where
  question_text : String
  options : List String
  correct_answer : Nat
  category : String
  difficulty : Nat
deriving DecidableEq, Repr

structure Question where
  id : Nat
  submitter : PK
  question_text : String
  options : List String
  correct_answer : Nat
  category : String
  difficulty : Nat
  votes_approve : Nat
  votes_reject : Nat
  voters : List PK
  status : QuestionStatus
  created_at : Int
deriving DecidableEq, Repr

structure QuestionBankState where
  authority : PK
  total_questions : Nat
  active_questions : Nat
  curators : List PK
deriving DecidableEq, Repr

structure UserReputation where
  user : PK
  questions_submitted : Nat
  questions_approved : Nat
  curation_votes : Nat
  reputation_score : Nat
deriving DecidableEq, Repr

/-- initialize_question_bank: the authority is the initial (sole) curator. -/
def initialize_question_bank (authority : PK) : QuestionBankState :=
  { authority := authority
    total_questions := 0
    active_questions := 0
    curators := [authority] }

/-- initialize_user_reputation: starting reputation is 100. -/
def initialize_user_reputation (user : PK) : UserReputation :=
  { user := user
    questions_submitted := 0
    questions_approved := 0
    curation_votes := 0
    reputation_score := 100 }

/-- submit_question: validates format and reputation, then creates the
question and bumps the counters; error branches return before any write, so
they carry the records unchanged and no question. -/
def submit_question (now : Int) (d : QuestionData) (submitter : PK)
    (bank : QuestionBankState) (rep : UserReputation) :
    Option QuestionBankError × Option Question × QuestionBankState × UserReputation :=
  if ¬ d.question_text.length ≤ 500 then
    (some .InvalidQuestionFormat, none, bank, rep)
  else if ¬ d.category.length ≤ 50 then
    (some .InvalidQuestionFormat, none, bank, rep)
  else if ¬ (1 ≤ d.difficulty ∧ d.difficulty ≤ 3) then
    (some .InvalidQuestionFormat, none, bank, rep)
  else if ¬ d.correct_answer ≤ 3 then
    (some .InvalidQuestionFormat, none, bank, rep)
  else if ¬ ∀ o ∈ d.options, o.length ≤ 100 then
    (some .InvalidQuestionFormat, none, bank, rep)
  else if ¬ 100 ≤ rep.reputation_score then
    (some .InsufficientReputation, none, bank, rep)
  else
    let q : Question :=
      { id := bank.total_questions
        submitter := submitter
        question_text := d.question_text
        options := d.options
        correct_answer := d.correct_answer
        category := d.category
        difficulty := d.difficulty
        votes_approve := 0
        votes_reject := 0
        voters := []
        status := .Pending
        created_at := now }
    (none, some q,
      { bank with total_questions := bank.total_questions + 1 },
      { rep with questions_submitted := rep.questions_submitted + 1 })

/-- vote_on_question: pending-check, then self-vote check, then duplicate
check; on success pushes the voter, bumps the matching counter and rewards the
voter with +10 reputation. -/
def vote_on_question (q : Question) (voter : PK) (rep : UserReputation)
    (vote_type : VoteType) :
    Option QuestionBankError × Question × UserReputation :=
  if ¬ q.status = .Pending then
    (some .QuestionNotPending, q, rep)
  else if q.submitter = voter then
    (some .CannotVoteOnOwnQuestion, q, rep)
  else if voter ∈ q.voters then
    (some .AlreadyVoted, q, rep)
  else
    let q1 := { q with voters := q.voters ++ [voter] }
    let q2 :=
      match vote_type with
      | .Approve => { q1 with votes_approve := q1.votes_approve + 1 }
      | .Reject => { q1 with votes_reject := q1.votes_reject + 1 }
    (none, q2,
      { rep with
          curation_votes := rep.curation_votes + 1
          reputation_score := rep.reputation_score + 10 })

/-- finalize_question: curator gate, id and pending checks, quorum of 5, then
approve wins strictly, otherwise (ties included) rejected with the conditional
-10 penalty on the submitter. -/
def finalize_question (question_id : Nat) (curator : PK) (q : Question)
    (bank : QuestionBankState) (subRep : UserReputation) :
    Option QuestionBankError × Question × QuestionBankState × UserReputation :=
  if ¬ curator ∈ bank.curators then
    (some .UnauthorizedCurator, q, bank, subRep)
  else if ¬ q.id = question_id then
    (some .QuestionNotFound, q, bank, subRep)
  else if ¬ q.status = .Pending then
    (some .QuestionNotPending, q, bank, subRep)
  else if ¬ 5 ≤ q.votes_approve + q.votes_reject then
    (some .InsufficientVotes, q, bank, subRep)
  else if q.votes_reject < q.votes_approve then
    (none, { q with status := .Approved },
      { bank with active_questions := bank.active_questions + 1 },
      { subRep with
          questions_approved := subRep.questions_approved + 1
          reputation_score := subRep.reputation_score + 50 })
  else
    (none, { q with status := .Rejected }, bank,
      { subRep with
          reputation_score :=
            if 10 < subRep.reputation_score then subRep.reputation_score - 10
            else subRep.reputation_score })

/-- update_reputation: fixed (counter, score delta) per action; the rejected
branch subtracts 10 only when the score exceeds 10. -/
def update_reputation (rep : UserReputation) (action : ReputationAction) :
    UserReputation :=
  match action with
  | .QuestionSubmitted =>
    { rep with
        questions_submitted := rep.questions_submitted + 1
        reputation_score := rep.reputation_score + 5 }
  | .QuestionApproved =>
    { rep with
        questions_approved := rep.questions_approved + 1
        reputation_score := rep.reputation_score + 50 }
  | .QuestionRejected =>
    { rep with
        reputation_score :=
          if 10 < rep.reputation_score then rep.reputation_score - 10
          else rep.reputation_score }
  | .VoteCast =>
    { rep with
        curation_votes := rep.curation_votes + 1
        reputation_score := rep.reputation_score + 10 }

/-- add_curator: authority only, duplicate check, then push. -/
def add_curator (caller : PK) (new_curator : PK) (bank : QuestionBankState) :
    Option QuestionBankError × QuestionBankState :=
  if ¬ caller = bank.authority then
    (some .UnauthorizedAuthority, bank)
  else if new_curator ∈ bank.curators then
    (some .CuratorAlreadyExists, bank)
  else
    (none, { bank with curators := bank.curators ++ [new_curator] })

/-- remove_curator: authority only, the authority itself cannot be removed,
and the first occurrence found by position is removed. -/
def remove_curator (caller : PK) (curator_to_remove : PK)
    (bank : QuestionBankState) :
    Option QuestionBankError × QuestionBankState :=
  if ¬ caller = bank.authority then
    (some .UnauthorizedAuthority, bank)
  else if curator_to_remove = bank.authority then
    (some .CannotRemoveAuthority, bank)
  else if curator_to_remove ∈ bank.curators then
    (none, { bank with curators := bank.curators.erase curator_to_remove })
  else
    (some .CuratorNotFound, bank)

end QuestionBank

namespace RewardDistributor

abbrev PK := Nat

inductive RewardType
  | SOL
  | SplToken
  | NFT
deriving DecidableEq, Repr

inductive DistributionType
  | EqualShare
  | PerformanceBased
  | StakingRewards
  | AchievementBased
  | RandomDrop
deriving DecidableEq, Repr

/-- Errors of the reward distributor.  ArithmeticUnderflow is not a member of
the source error enum: it models the abort raised by a u64 subtraction that
would go negative (the programs are compiled with overflow checks). -/
inductive RewardDistributorError
  | PoolNotFound
  | InsufficientPoolFunds
  | ClaimPeriodEnded
  | AlreadyClaimed
  | InvalidPerformanceData
  | InvalidPoolName
  | InvalidStartTime
  | InvalidEndTime
  | InvalidRewardAmount
  | MissingTokenMint
  | NFTFundingUnsupported
  | PoolNotActive
  | ClaimPeriodNotStarted
  | InvalidClaimRecord
  | NothingToClaim
  | NFTClaimUnsupported
  | UnauthorizedAuthority
  | CannotUpdateActivePool
  | PoolStillActive
  | ArithmeticUnderflow
deriving DecidableEq, Repr

/-- A reward pool record; `key` is the address of the account holding it
(nonzero for any allocated account, 0 is the default key). -/
structure RewardPool where
  key : PK
  id : Nat
  authority : PK
  name : String
  total_rewards : Nat
  distributed_rewards : Nat
  reward_type : RewardType
  token_mint : Option PK
  distribution_criteria : DistributionType
  start_time : Int
  end_time : Int
  active : Bool
deriving DecidableEq, Repr

structure UserClaim where
  pool : PK
  user : PK
  amount_claimed : Nat
  last_claim_time : Int
  total_eligible : Nat
deriving DecidableEq, Repr

/-- The all-zero state of a user-claim account freshly allocated by
init_if_needed (its `pool` field is the default key 0). -/
def UserClaim.zeroed : UserClaim :=
  { pool := 0, user := 0, amount_claimed := 0, last_claim_time := 0,
    total_eligible := 0 }

structure PerformanceData where
  score : Nat
  completion_time : Int
  staking_duration : Int
  achievements_unlocked : Nat
  random_seed : Nat
deriving DecidableEq, Repr

def PerformanceData.validate (p : PerformanceData) : Prop :=
  p.score ≤ 100 ∧ 0 ≤ p.completion_time ∧ 0 ≤ p.staking_duration ∧
    p.achievements_unlocked ≤ 1000

instance (p : PerformanceData) : Decidable p.validate := by
  unfold PerformanceData.validate
  infer_instance

structure CreateRewardPoolData where
  id : Nat
  name : String
  total_rewards : Nat
  reward_type : RewardType
  token_mint : Option PK
  distribution_criteria : DistributionType
  start_time : Int
  end_time : Int
deriving DecidableEq, Repr

/-- calculate_performance_rewards: base 0.1% of the pool, score bucketed into
multiplier tiers 1-5, a time bonus (1 when completion_time is 0), integer
truncation throughout, capped at 10% of the pool.  Division on i64 values
is Rust truncating division. -/
def calculate_performance_rewards (pool : RewardPool) (p : PerformanceData) :
    Nat :=
  let base_reward := pool.total_rewards / 1000
  let performance_multiplier : Nat :=
    if p.score ≤ 50 then 1
    else if p.score ≤ 75 then 2
    else if p.score ≤ 90 then 3
    else if p.score ≤ 99 then 4
    else if p.score = 100 then 5
    else 1
  let time_bonus : Nat :=
    if 0 < p.completion_time then
      (max 1 (120 - Int.tdiv p.completion_time 60)).toNat
    else 1
  let calculated_reward := base_reward * performance_multiplier * time_bonus / 100
  let max_reward := pool.total_rewards / 10
  min calculated_reward max_reward

/-- calculate_staking_rewards: daily allocation times whole staked days,
capped at 10% of the pool. -/
def calculate_staking_rewards (pool : RewardPool) (p : PerformanceData) :
    Nat :=
  let base_reward := pool.total_rewards / 365
  let staking_days := (Int.tdiv p.staking_duration (24 * 60 * 60)).toNat
  let calculated_reward := base_reward * staking_days
  let max_reward := pool.total_rewards / 10
  min calculated_reward max_reward

/-- calculate_achievement_rewards: 1% of the pool per achievement, capped at
20% of the pool. -/
def calculate_achievement_rewards (pool : RewardPool) (p : PerformanceData) :
    Nat :=
  let base_reward := pool.total_rewards / 100
  let calculated_reward := base_reward * p.achievements_unlocked
  let max_reward := pool.total_rewards / 5
  min calculated_reward max_reward

/-- calculate_random_rewards: 10% seeded chance of 2% of the pool. -/
def calculate_random_rewards (pool : RewardPool) (p : PerformanceData) :
    Nat :=
  if p.random_seed % 100 < 10 then pool.total_rewards / 50 else 0

/-- The distribution_criteria dispatch inside calculate_user_rewards. -/
def calculate_reward_by_criteria (pool : RewardPool) (p : PerformanceData) :
    Nat :=
  match pool.distribution_criteria with
  | .EqualShare => pool.total_rewards / 100
  | .PerformanceBased => calculate_performance_rewards pool p
  | .StakingRewards => calculate_staking_rewards pool p
  | .AchievementBased => calculate_achievement_rewards pool p
  | .RandomDrop => calculate_random_rewards pool p

/-- create_reward_pool, in the statement order of the source: the four
validation checks run before the pool record is written, but the
funding-path checks (MissingTokenMint, and the NFT check that always fails
when initial_funding > 0) run after it, so those error branches carry the
already-written pool record.  Successful SOL/SplToken funding transfers
initial_funding from the authority into the vault (external holding). -/
def create_reward_pool (now : Int) (d : CreateRewardPoolData)
    (initial_funding : Nat) (authority : PK) (poolKey : PK) :
    Option RewardDistributorError × Option RewardPool :=
  if ¬ d.name.length ≤ 50 then (some .InvalidPoolName, none)
  else if ¬ now < d.start_time then (some .InvalidStartTime, none)
  else if ¬ d.start_time < d.end_time then (some .InvalidEndTime, none)
  else if ¬ 0 < d.total_rewards then (some .InvalidRewardAmount, none)
  else
    let pool : RewardPool :=
      { key := poolKey
        id := d.id
        authority := authority
        name := d.name
        total_rewards := d.total_rewards
        distributed_rewards := 0
        reward_type := d.reward_type
        token_mint := d.token_mint
        distribution_criteria := d.distribution_criteria
        start_time := d.start_time
        end_time := d.end_time
        active := true }
    if 0 < initial_funding then
      match d.reward_type with
      | .SOL => (none, some pool)
      | .SplToken =>
        if d.token_mint = none then (some .MissingTokenMint, some pool)
        else (none, some pool)
      | .NFT =>
        if initial_funding = 0 then (none, some pool)
        else (some .NFTFundingUnsupported, some pool)
    else (none, some pool)

/-- fund_reward_pool: id, active and amount checks, the type-dispatched
transfer into the vault, then total_rewards grows by the amount. -/
def fund_reward_pool (pool_id : Nat) (amount : Nat) (pool : RewardPool) :
    Option RewardDistributorError × RewardPool :=
  if ¬ pool.id = pool_id then (some .PoolNotFound, pool)
  else if ¬ pool.active then (some .PoolNotActive, pool)
  else if ¬ 0 < amount then (some .InvalidRewardAmount, pool)
  else
    match pool.reward_type with
    | .NFT => (some .NFTFundingUnsupported, pool)
    | _ => (none, { pool with total_rewards := pool.total_rewards + amount })

/-- calculate_user_rewards: id/active/window checks, performance-data
validation, the criteria dispatch, then the claim record is initialized (when
its pool field is still the default key) or its total_eligible is overwritten.
The returned Nat is the instruction's Ok value (0 on error branches, which
return before any write). -/
def calculate_user_rewards (now : Int) (pool_id : Nat) (p : PerformanceData)
    (pool : RewardPool) (user : PK) (uc : UserClaim) :
    Option RewardDistributorError × UserClaim × Nat :=
  if ¬ pool.id = pool_id then (some .PoolNotFound, uc, 0)
  else if ¬ pool.active then (some .PoolNotActive, uc, 0)
  else if now < pool.start_time then (some .ClaimPeriodNotStarted, uc, 0)
  else if pool.end_time < now then (some .ClaimPeriodEnded, uc, 0)
  else if ¬ p.validate then (some .InvalidPerformanceData, uc, 0)
  else
    let calculated_reward := calculate_reward_by_criteria pool p
    if uc.pool = 0 then
      (none,
        { pool := pool.key
          user := user
          amount_claimed := 0
          last_claim_time := 0
          total_eligible := calculated_reward },
        calculated_reward)
    else
      (none, { uc with total_eligible := calculated_reward }, calculated_reward)

/-- claim_rewards: id/active/claim-record/window checks, then
claimable = total_eligible - amount_claimed (an u64 subtraction that aborts
on underflow), the NothingToClaim and InsufficientPoolFunds checks, the
type-dispatched transfer of claimable from the vault to the user (NFT claims
fail), and finally the record updates.  Every error branch returns before the
record updates. -/
def claim_rewards (now : Int) (pool_id : Nat) (pool : RewardPool) (user : PK)
    (uc : UserClaim) :
    Option RewardDistributorError × RewardPool × UserClaim :=
  if ¬ pool.id = pool_id then (some .PoolNotFound, pool, uc)
  else if ¬ pool.active then (some .PoolNotActive, pool, uc)
  else if ¬ uc.pool = pool.key then (some .InvalidClaimRecord, pool, uc)
  else if now < pool.start_time then (some .ClaimPeriodNotStarted, pool, uc)
  else if pool.end_time < now then (some .ClaimPeriodEnded, pool, uc)
  else if uc.total_eligible < uc.amount_claimed then
    (some .ArithmeticUnderflow, pool, uc)
  else
    let claimable_amount := uc.total_eligible - uc.amount_claimed
    if ¬ 0 < claimable_amount then (some .NothingToClaim, pool, uc)
    else if pool.total_rewards < pool.distributed_rewards + claimable_amount then
      (some .InsufficientPoolFunds, pool, uc)
    else
      match pool.reward_type with
      | .NFT => (some .NFTClaimUnsupported, pool, uc)
      | _ =>
        (none,
          { pool with
              distributed_rewards := pool.distributed_rewards + claimable_amount },
          { uc with
              amount_claimed := uc.amount_claimed + claimable_amount
              last_claim_time := now })

/-- update_distribution_criteria: id and authority checks, and only before
the pool's start_time. -/
def update_distribution_criteria (now : Int) (pool_id : Nat)
    (new_criteria : DistributionType) (caller : PK) (pool : RewardPool) :
    Option RewardDistributorError × RewardPool :=
  if ¬ pool.id = pool_id then (some .PoolNotFound, pool)
  else if ¬ pool.authority = caller then (some .UnauthorizedAuthority, pool)
  else if ¬ now < pool.start_time then (some .CannotUpdateActivePool, pool)
  else (none, { pool with distribution_criteria := new_criteria })

/-- close_reward_pool: id and authority checks and current_time > end_time —
the active flag is never checked.  remaining = total_rewards -
distributed_rewards (u64 subtraction, aborts on underflow) is transferred
from the vault back to the authority for SOL and SplToken pools (the NFT
branch transfers nothing), then active is set false.  The last component is
the amount the instruction transfers out of the vault. -/
def close_reward_pool (now : Int) (pool_id : Nat) (caller : PK)
    (pool : RewardPool) :
    Option RewardDistributorError × RewardPool × Nat :=
  if ¬ pool.id = pool_id then (some .PoolNotFound, pool, 0)
  else if ¬ pool.authority = caller then (some .UnauthorizedAuthority, pool, 0)
  else if ¬ pool.end_time < now then (some .PoolStillActive, pool, 0)
  else if pool.total_rewards < pool.distributed_rewards then
    (some .ArithmeticUnderflow, pool, 0)
  else
    let remaining_funds := pool.total_rewards - pool.distributed_rewards
    let transferred :=
      if 0 < remaining_funds then
        match pool.reward_type with
        | .NFT => 0
        | _ => remaining_funds
      else 0
    (none, { pool with active := false }, transferred)

/-- get_claimable_amount: id check, 0 for a never-initialized claim record,
otherwise total_eligible - amount_claimed (u64 subtraction, aborts on
underflow). -/
def get_claimable_amount (pool_id : Nat) (pool : RewardPool) (uc : UserClaim) :
    Option RewardDistributorError × Nat :=
  if ¬ pool.id = pool_id then (some .PoolNotFound, 0)
  else if uc.pool = 0 then (none, 0)
  else if uc.total_eligible < uc.amount_claimed then
    (some .ArithmeticUnderflow, 0)
  else (none, uc.total_eligible - uc.amount_claimed)

/-- One pool together with the claim records derived from it, all user-claim
accounts starting in the zeroed state. -/
structure RDState where
  pool : RewardPool
  claims : PK → UserClaim

/-- The fund / calculate / claim instructions acting on a pool's state, each
carrying the clock value supplied at the call. -/
inductive RDOp
  | fund (pool_id : Nat) (amount : Nat)
  | calculate (now : Int) (pool_id : Nat) (p : PerformanceData) (user : PK)
  | claim (now : Int) (pool_id : Nat) (user : PK)

/-- Executing one instruction against the state; a failed instruction leaves
every record as the instruction returned it (all its error branches return
the records unchanged). -/
def stepRD (s : RDState) (op : RDOp) : RDState :=
  match op with
  | .fund pid amount =>
    { s with pool := (fund_reward_pool pid amount s.pool).2 }
  | .calculate now pid p user =>
    let r := calculate_user_rewards now pid p s.pool user (s.claims user)
    { s with claims := fun v => if v = user then r.2.1 else s.claims v }
  | .claim now pid user =>
    let r := claim_rewards now pid s.pool user (s.claims user)
    { pool := r.2.1, claims := fun v => if v = user then r.2.2 else s.claims v }

def runRD (s : RDState) : List RDOp → RDState :=
  List.foldl stepRD s

/-- The pool ledger invariant: a pool never records more distributed than
total rewards. -/
def poolInv (pool : RewardPool) : Prop :=
  pool.distributed_rewards ≤ pool.total_rewards

/-- A PerformanceBased pool with 1000 total rewards (the spec's truncation
scenario). -/
def perfPool : RewardPool :=
  { key := 3, id := 2, authority := 9, name := "p", total_rewards := 1000,
    distributed_rewards := 0, reward_type := .SOL, token_mint := none,
    distribution_criteria := .PerformanceBased, start_time := 10,
    end_time := 100, active := true }

/-- Performance data with a perfect score and zero completion time. -/
def perfInput : PerformanceData :=
  { score := 100, completion_time := 0, staking_duration := 0,
    achievements_unlocked := 0, random_seed := 0 }

/-- A RandomDrop pool with 1000 total rewards, claim window [10, 100]. -/
def dropPool : RewardPool :=
  { key := 7, id := 1, authority := 9, name := "r", total_rewards := 1000,
    distributed_rewards := 0, reward_type := .SOL, token_mint := none,
    distribution_criteria := .RandomDrop, start_time := 10,
    end_time := 100, active := true }

/-- Performance data that only varies the random seed (seed < 10 mod 100
wins the drop, anything else gets 0). -/
def seedInput (s : Nat) : PerformanceData :=
  { score := 0, completion_time := 0, staking_duration := 0,
    achievements_unlocked := 0, random_seed := s }

/-- Step 1 of the recomputation trace: user 5 computes eligibility on the
RandomDrop pool with a winning seed, creating the claim record
(total_eligible = 20). -/
def traceClaim1 : UserClaim :=
  (calculate_user_rewards 20 1 (seedInput 5) dropPool 5 UserClaim.zeroed).2.1

/-- Step 2: user 5 claims; the pool after the claim
(distributed_rewards = 20). -/
def tracePool2 : RewardPool :=
  (claim_rewards 20 1 dropPool 5 traceClaim1).2.1

/-- Step 2: the claim record after the claim (amount_claimed = 20). -/
def traceClaim2 : UserClaim :=
  (claim_rewards 20 1 dropPool 5 traceClaim1).2.2

/-- Step 3: user 5 recomputes eligibility with a losing seed; the overwrite
drops total_eligible to 0 while amount_claimed is still 20. -/
def traceClaim3 : UserClaim :=
  (calculate_user_rewards 30 1 (seedInput 15) tracePool2 5 traceClaim2).2.1

/-- A pool past its end_time with 60 of its 100 rewards still undistributed,
owned by authority 9. -/
def closablePool : RewardPool :=
  { key := 7, id := 1, authority := 9, name := "c", total_rewards := 100,
    distributed_rewards := 40, reward_type := .SOL, token_mint := none,
    distribution_criteria := .EqualShare, start_time := 10,
    end_time := 50, active := true }

/-- The same pool after its first close (active = false). -/
def closablePoolAfter : RewardPool :=
  (close_reward_pool 60 1 9 closablePool).2.1

/-- Pool-creation data for an NFT pool. -/
def nftPoolData : CreateRewardPoolData :=
  { id := 4, name := "n", total_rewards := 5, reward_type := .NFT,
    token_mint := none, distribution_criteria := .EqualShare,
    start_time := 10, end_time := 20 }

end RewardDistributor

namespace QuestionBank

/-- A reputation record sitting at score 15. -/
def repFifteen : UserReputation :=
  { user := 1, questions_submitted := 1, questions_approved := 0,
    curation_votes := 0, reputation_score := 15 }

/-- A pending question by user 1 with 0 approvals and 5 rejections. -/
def rejectableQuestion : Question :=
  { id := 0, submitter := 1, question_text := "q",
    options := ["a", "b", "c", "d"], correct_answer := 0, category := "g",
    difficulty := 1, votes_approve := 0, votes_reject := 5,
    voters := [2, 3, 4, 5, 6], status := .Pending, created_at := 0 }

/-- A question bank whose authority 2 is its sole curator. -/
def cexBank : QuestionBankState := initialize_question_bank 2

/-- A pending question with 3 approvals and 2 rejections (quorum met,
approve wins). -/
def approvableQuestion : Question :=
  { rejectableQuestion with votes_approve := 3, votes_reject := 2 }

/-- A pending question with only 4 total votes (quorum not met). -/
def fourVoteQuestion : Question :=
  { rejectableQuestion with
      votes_approve := 2
      votes_reject := 2
      voters := [2, 3, 4, 5] }

/-- A pending question with a 3-3 tie (quorum met). -/
def tieQuestion : Question :=
  { rejectableQuestion with
      votes_approve := 3
      votes_reject := 3
      voters := [2, 3, 4, 5, 6, 7] }

end QuestionBank

namespace RewardDistributor

theorem fund_preserves_poolInv (pid amount : Nat) (pool : RewardPool)
    (h : poolInv pool) : poolInv (fund_reward_pool pid amount pool).2 := by
  unfold fund_reward_pool
  split_ifs <;> try exact h
  split
  · exact h
  · exact Nat.le_trans h (Nat.le_add_right _ _)

theorem claim_preserves_poolInv (now : Int) (pid : Nat) (pool : RewardPool)
    (user : PK) (uc : UserClaim) (h : poolInv pool) :
    poolInv (claim_rewards now pid pool user uc).2.1 := by
  simp only [claim_rewards]
  split_ifs with h1 h2 h3 h4 h5 h6 h7 h8 <;> try exact h
  split
  · exact h
  · show pool.distributed_rewards + (uc.total_eligible - uc.amount_claimed) ≤
      pool.total_rewards
    omega

theorem stepRD_poolInv (s : RDState) (op : RDOp) (h : poolInv s.pool) :
    poolInv (stepRD s op).pool := by
  cases op with
  | fund pid amount => exact fund_preserves_poolInv pid amount s.pool h
  | calculate now pid p user => exact h
  | claim now pid user =>
    exact claim_preserves_poolInv now pid s.pool user (s.claims user) h

theorem runRD_poolInv (ops : List RDOp) (s : RDState) (h : poolInv s.pool) :
    poolInv (runRD s ops).pool := by
  induction ops generalizing s with
  | nil => exact h
  | cons op ops ih => exact ih (stepRD s op) (stepRD_poolInv s op h)

theorem create_establishes_poolInv (now : Int) (d : CreateRewardPoolData)
    (f : Nat) (a k : PK) (e : Option RewardDistributorError)
    (pool : RewardPool) (h : create_reward_pool now d f a k = (e, some pool)) :
    poolInv pool := by
  unfold create_reward_pool at h
  cases hrt : d.reward_type <;> simp only [hrt] at h <;> split_ifs at h <;>
    simp only [Prod.mk.injEq, Option.some.injEq] at h <;>
    first
      | (obtain ⟨-, rfl⟩ := h; exact Nat.zero_le _)
      | simp_all



/-- C1: for every reward pool and every sequence of create_reward_pool,
fund_reward_pool and claim_rewards operations (calculate_user_rewards steps
may be interleaved), the invariant distributed_rewards ≤ total_rewards holds
on the pool after each operation completes, successfully or with an error:
any pool record create_reward_pool writes satisfies it, and it is preserved
by every step of every instruction sequence. -/
theorem distributed_le_total_invariant :
    (∀ (now : Int) (d : CreateRewardPoolData) (f : Nat) (a k : PK)
        (e : Option RewardDistributorError) (pool : RewardPool),
      create_reward_pool now d f a k = (e, some pool) → poolInv pool) ∧
    (∀ (s : RDState) (ops : List RDOp),
      poolInv s.pool → poolInv (runRD s ops).pool) :=
  ⟨create_establishes_poolInv, fun s ops h => runRD_poolInv ops s h⟩

theorem distributed_le_total_invariant_witness :
    poolInv
      (runRD { pool := dropPool, claims := fun _ => UserClaim.zeroed }
        [RDOp.calculate 20 1 (seedInput 5) 5, RDOp.claim 20 1 5,
         RDOp.fund 1 500, RDOp.claim 25 1 5]).pool ∧
    poolInv perfPool :=
  ⟨distributed_le_total_invariant.2
      { pool := dropPool, claims := fun _ => UserClaim.zeroed }
      [RDOp.calculate 20 1 (seedInput 5) 5, RDOp.claim 20 1 5,
       RDOp.fund 1 500, RDOp.claim 25 1 5]
      (show dropPool.distributed_rewards ≤ dropPool.total_rewards by decide),
   distributed_le_total_invariant.1 0
      { id := 2, name := "p", total_rewards := 1000, reward_type := .SOL,
        token_mint := none, distribution_criteria := .PerformanceBased,
        start_time := 10, end_time := 100 }
      0 9 3 none perfPool (by decide)⟩

end RewardDistributor

namespace RewardDistributor

/-- C10: for perfPool (total_rewards 1000, PerformanceBased) with score 100
and completion_time 0, score 100 maps to multiplier 5 and completion_time 0
to time bonus 1, so the truncating computation (1000/1000)*5*1/100 yields 0;
the 10% cap is 100, and calculate_user_rewards writes total_eligible = 0 for
this input and returns 0. -/
theorem performance_reward_truncation :
    calculate_performance_rewards perfPool perfInput = 0 ∧
    perfPool.total_rewards / 1000 * 5 * 1 / 100 = 0 ∧
    perfPool.total_rewards / 10 = 100 ∧
    calculate_user_rewards 50 2 perfInput perfPool 4 UserClaim.zeroed =
      (none,
        { pool := 3, user := 4, amount_claimed := 0, last_claim_time := 0,
          total_eligible := 0 }, 0) := by
  decide

/-- C3: close_reward_pool checks only the pool id, the authority and
current_time > end_time, never the active flag: closing closablePool
(total 100, distributed 40) after end_time transfers the remaining 60 and
deactivates the pool, and a second close_reward_pool on the now-inactive pool
succeeds again and transfers the same remaining 60 out of the vault a second
time. -/
theorem double_close_retransfers :
    close_reward_pool 60 1 9 closablePool = (none, closablePoolAfter, 60) ∧
    closablePoolAfter.active = false ∧
    close_reward_pool 60 1 9 closablePoolAfter = (none, closablePoolAfter, 60) := by
  decide

/-- C2 counterexample: on the RandomDrop pool, user 5 computes eligibility
20, claims it (amount_claimed becomes 20), then recomputes with a losing
seed: the recomputation succeeds and writes total_eligible = 0, strictly
below the record's amount_claimed = 20 — contradicting the claim that a
successful recomputation never sets total_eligible below amount_claimed. -/
theorem calculate_lowers_total_eligible_cex :
    traceClaim2.amount_claimed = 20 ∧ traceClaim2.total_eligible = 20 ∧
    (calculate_user_rewards 30 1 (seedInput 15) tracePool2 5 traceClaim2).1 = none ∧
    traceClaim3.total_eligible = 0 ∧ traceClaim3.amount_claimed = 20 ∧
    traceClaim3.total_eligible < traceClaim3.amount_claimed := by
  decide

/-- C2 amended: a successful calculate_user_rewards on an existing claim
record overwrites total_eligible with the newly computed reward
unconditionally — no floor at amount_claimed is enforced — and leaves
amount_claimed untouched, so the recomputed total_eligible can fall below
amount_claimed. -/
theorem calculate_overwrites_total_eligible (now : Int) (pid : Nat)
    (p : PerformanceData) (pool : RewardPool) (user : PK) (uc : UserClaim)
    (hrec : ¬ uc.pool = 0)
    (hok : (calculate_user_rewards now pid p pool user uc).1 = none) :
    (calculate_user_rewards now pid p pool user uc).2.1 =
      { uc with total_eligible := calculate_reward_by_criteria pool p } := by
  simp only [calculate_user_rewards] at hok ⊢
  split_ifs at hok ⊢ <;> simp_all

theorem calculate_overwrites_total_eligible_witness :
    (calculate_user_rewards 30 1 (seedInput 15) tracePool2 5 traceClaim2).2.1 =
      { traceClaim2 with
          total_eligible := calculate_reward_by_criteria tracePool2 (seedInput 15) } :=
  calculate_overwrites_total_eligible 30 1 (seedInput 15) tracePool2 5
    traceClaim2 (by decide) (by decide)

end RewardDistributor

namespace QuestionBank

/-- C5 counterexample: a single rejection penalty on a score of 15 yields 5,
strictly below the claimed floor of 10; three consecutive penalties also end
at 5, not 10 — both through update_reputation's QuestionRejected branch and
through finalize_question's rejected branch. -/
theorem rejection_penalty_below_ten_cex :
    (update_reputation repFifteen .QuestionRejected).reputation_score = 5 ∧
    (update_reputation (update_reputation (update_reputation repFifteen
        .QuestionRejected) .QuestionRejected) .QuestionRejected).reputation_score
      = 5 ∧
    (finalize_question 0 2 rejectableQuestion cexBank repFifteen).1 = none ∧
    (finalize_question 0 2 rejectableQuestion cexBank
        repFifteen).2.2.2.reputation_score = 5 := by
  decide

/-- C5 amended: the rejection penalty subtracts 10 only when the current
score exceeds 10 and is a no-op otherwise; it never underflows and never
produces a score below 1, but it can land below 10: a score of 15 drops to 5
on the first penalty and further penalties are no-ops, ending at 5.
finalize_question's rejected branch applies exactly this update to the
submitter. -/
theorem rejection_penalty_floor (rep : UserReputation) :
    ((update_reputation rep .QuestionRejected).reputation_score =
      if 10 < rep.reputation_score then rep.reputation_score - 10
      else rep.reputation_score) ∧
    (rep.reputation_score ≤ 10 → update_reputation rep .QuestionRejected = rep) ∧
    (10 < rep.reputation_score →
      1 ≤ (update_reputation rep .QuestionRejected).reputation_score) ∧
    ((update_reputation (update_reputation (update_reputation
        { rep with reputation_score := 15 } .QuestionRejected)
        .QuestionRejected) .QuestionRejected).reputation_score = 5) ∧
    (∀ (qid : Nat) (c : PK) (q : Question) (bank : QuestionBankState),
      c ∈ bank.curators → q.id = qid → q.status = .Pending →
      5 ≤ q.votes_approve + q.votes_reject →
      q.votes_approve ≤ q.votes_reject →
      (finalize_question qid c q bank rep).2.2.2 =
        update_reputation rep .QuestionRejected) := by
  refine ⟨rfl, ?_, ?_, ?_, ?_⟩
  · intro h
    unfold update_reputation
    rw [if_neg (by omega)]
  · intro h
    unfold update_reputation
    rw [if_pos h]
    show 1 ≤ rep.reputation_score - 10
    omega
  · simp [update_reputation]
  · intro qid c q bank h1 h2 h3 h4 h5
    unfold finalize_question
    rw [if_neg (not_not_intro h1), if_neg (not_not_intro h2),
        if_neg (not_not_intro h3), if_neg (not_not_intro h4),
        if_neg (by omega)]
    rfl

theorem rejection_penalty_floor_witness :
    update_reputation ⟨8, 0, 0, 0, 9⟩ .QuestionRejected = ⟨8, 0, 0, 0, 9⟩ ∧
    1 ≤ (update_reputation ⟨8, 0, 0, 0, 30⟩ .QuestionRejected).reputation_score ∧
    (finalize_question 0 2 rejectableQuestion cexBank
        ⟨1, 0, 0, 0, 100⟩).2.2.2 =
      update_reputation ⟨1, 0, 0, 0, 100⟩ .QuestionRejected :=
  ⟨(rejection_penalty_floor ⟨8, 0, 0, 0, 9⟩).2.1 (by decide),
   (rejection_penalty_floor ⟨8, 0, 0, 0, 30⟩).2.2.1 (by decide),
   (rejection_penalty_floor ⟨1, 0, 0, 0, 100⟩).2.2.2.2 0 2 rejectableQuestion
     cexBank (by decide) (by decide) (by decide) (by decide) (by decide)⟩

end QuestionBank

namespace RewardDistributor

theorem claim_nothing_when_exhausted (now : Int) (pid : Nat)
    (pool : RewardPool) (user : PK) (uc : UserClaim)
    (hid : pool.id = pid) (hact : pool.active = true)
    (hrec : uc.pool = pool.key)
    (hs : pool.start_time ≤ now) (he : now ≤ pool.end_time)
    (heq : uc.amount_claimed = uc.total_eligible) :
    claim_rewards now pid pool user uc = (some .NothingToClaim, pool, uc) := by
  have hs' : ¬ now < pool.start_time := by omega
  have he' : ¬ pool.end_time < now := by omega
  have hu' : ¬ uc.total_eligible < uc.amount_claimed := by omega
  have hz : ¬ 0 < uc.total_eligible - uc.amount_claimed := by omega
  simp only [claim_rewards]
  rw [if_neg (not_not_intro hid), if_neg (not_not_intro hact),
      if_neg (not_not_intro hrec), if_neg hs', if_neg he', if_neg hu',
      if_pos hz]

/-- C4: on an active pool within its claim window, for a valid claim record
with claimable = total_eligible - amount_claimed > 0, sufficient pool funds
and a claimable (non-NFT) reward type, the first claim_rewards succeeds and
increments amount_claimed by exactly total_eligible - amount_claimed (and
distributed_rewards by the same), and a second claim_rewards with no
intervening increase of total_eligible fails NothingToClaim, leaving
amount_claimed and distributed_rewards unchanged. -/
theorem no_double_claim (now now2 : Int) (pid : Nat) (pool : RewardPool)
    (user : PK) (uc : UserClaim)
    (hid : pool.id = pid) (hact : pool.active = true)
    (hrec : uc.pool = pool.key)
    (hs : pool.start_time ≤ now) (he : now ≤ pool.end_time)
    (hs2 : pool.start_time ≤ now2) (he2 : now2 ≤ pool.end_time)
    (hpos : uc.amount_claimed < uc.total_eligible)
    (hfund : pool.distributed_rewards + (uc.total_eligible - uc.amount_claimed)
      ≤ pool.total_rewards)
    (hnft : ¬ pool.reward_type = .NFT) :
    (claim_rewards now pid pool user uc).1 = none ∧
    (claim_rewards now pid pool user uc).2.2.amount_claimed =
      uc.amount_claimed + (uc.total_eligible - uc.amount_claimed) ∧
    (claim_rewards now pid pool user uc).2.1.distributed_rewards =
      pool.distributed_rewards + (uc.total_eligible - uc.amount_claimed) ∧
    claim_rewards now2 pid (claim_rewards now pid pool user uc).2.1 user
        (claim_rewards now pid pool user uc).2.2 =
      (some .NothingToClaim, (claim_rewards now pid pool user uc).2.1,
        (claim_rewards now pid pool user uc).2.2) := by
  have hs' : ¬ now < pool.start_time := by omega
  have he' : ¬ pool.end_time < now := by omega
  have hu' : ¬ uc.total_eligible < uc.amount_claimed := by omega
  have hnz : ¬ ¬ 0 < uc.total_eligible - uc.amount_claimed := by omega
  have hfund' : ¬ pool.total_rewards <
      pool.distributed_rewards + (uc.total_eligible - uc.amount_claimed) := by
    omega
  have hfirst : claim_rewards now pid pool user uc =
      (none,
        { pool with distributed_rewards :=
            pool.distributed_rewards + (uc.total_eligible - uc.amount_claimed) },
        { uc with
            amount_claimed :=
              uc.amount_claimed + (uc.total_eligible - uc.amount_claimed)
            last_claim_time := now }) := by
    simp only [claim_rewards]
    rw [if_neg (not_not_intro hid), if_neg (not_not_intro hact),
        if_neg (not_not_intro hrec), if_neg hs', if_neg he', if_neg hu',
        if_neg hnz, if_neg hfund']
  refine ⟨?_, ?_, ?_, ?_⟩
  · rw [hfirst]
  · rw [hfirst]
  · rw [hfirst]
  · rw [hfirst]
    exact claim_nothing_when_exhausted now2 pid _ user _ hid hact hrec hs2 he2
      (show uc.amount_claimed + (uc.total_eligible - uc.amount_claimed) =
        uc.total_eligible by omega)

theorem no_double_claim_witness :
    (claim_rewards 20 1 dropPool 5 traceClaim1).1 = none ∧
    (claim_rewards 20 1 dropPool 5 traceClaim1).2.2.amount_claimed =
      traceClaim1.amount_claimed +
        (traceClaim1.total_eligible - traceClaim1.amount_claimed) ∧
    (claim_rewards 20 1 dropPool 5 traceClaim1).2.1.distributed_rewards =
      dropPool.distributed_rewards +
        (traceClaim1.total_eligible - traceClaim1.amount_claimed) ∧
    claim_rewards 25 1 (claim_rewards 20 1 dropPool 5 traceClaim1).2.1 5
        (claim_rewards 20 1 dropPool 5 traceClaim1).2.2 =
      (some .NothingToClaim, (claim_rewards 20 1 dropPool 5 traceClaim1).2.1,
        (claim_rewards 20 1 dropPool 5 traceClaim1).2.2) :=
  no_double_claim 20 25 1 dropPool 5 traceClaim1 (by decide) (by decide)
    (by decide) (by decide) (by decide) (by decide) (by decide) (by decide)
    (by decide) (by decide)

end RewardDistributor

namespace QuestionBank

/-- C6: for an authorized curator finalizing a pending question with matching
id: with fewer than 5 total votes it fails InsufficientVotes (all records
unchanged); with at least 5 total votes it succeeds, setting status Approved
exactly when votes_approve > votes_reject (incrementing the registry's
active_questions and awarding the submitter +50 reputation), and Rejected
otherwise — ties (votes_approve = votes_reject) fall in the otherwise branch
and resolve to Rejected. -/
theorem finalize_question_decision (qid : Nat) (curator : PK) (q : Question)
    (bank : QuestionBankState) (srep : UserReputation)
    (hcur : curator ∈ bank.curators) (hid : q.id = qid)
    (hp : q.status = .Pending) :
    (q.votes_approve + q.votes_reject < 5 →
      finalize_question qid curator q bank srep =
        (some .InsufficientVotes, q, bank, srep)) ∧
    (5 ≤ q.votes_approve + q.votes_reject →
      q.votes_reject < q.votes_approve →
      finalize_question qid curator q bank srep =
        (none, { q with status := .Approved },
          { bank with active_questions := bank.active_questions + 1 },
          { srep with
              questions_approved := srep.questions_approved + 1
              reputation_score := srep.reputation_score + 50 })) ∧
    (5 ≤ q.votes_approve + q.votes_reject →
      q.votes_approve ≤ q.votes_reject →
      (finalize_question qid curator q bank srep).1 = none ∧
      (finalize_question qid curator q bank srep).2.1 =
        { q with status := .Rejected }) := by
  refine ⟨?_, ?_, ?_⟩
  · intro hlt
    have h4 : ¬ 5 ≤ q.votes_approve + q.votes_reject := by omega
    unfold finalize_question
    rw [if_neg (not_not_intro hcur), if_neg (not_not_intro hid),
        if_neg (not_not_intro hp), if_pos h4]
  · intro hge hwin
    have h4 : ¬ ¬ 5 ≤ q.votes_approve + q.votes_reject := by omega
    unfold finalize_question
    rw [if_neg (not_not_intro hcur), if_neg (not_not_intro hid),
        if_neg (not_not_intro hp), if_neg h4, if_pos hwin]
  · intro hge htie
    have h4 : ¬ ¬ 5 ≤ q.votes_approve + q.votes_reject := by omega
    have h5 : ¬ q.votes_reject < q.votes_approve := by omega
    unfold finalize_question
    rw [if_neg (not_not_intro hcur), if_neg (not_not_intro hid),
        if_neg (not_not_intro hp), if_neg h4, if_neg h5]
    exact ⟨rfl, rfl⟩

theorem finalize_question_decision_witness :
    finalize_question 0 2 fourVoteQuestion cexBank
        (initialize_user_reputation 1) =
      (some .InsufficientVotes, fourVoteQuestion, cexBank,
        initialize_user_reputation 1) ∧
    finalize_question 0 2 approvableQuestion cexBank
        (initialize_user_reputation 1) =
      (none, { approvableQuestion with status := .Approved },
        { cexBank with active_questions := cexBank.active_questions + 1 },
        { initialize_user_reputation 1 with
            questions_approved := (initialize_user_reputation 1).questions_approved + 1
            reputation_score := (initialize_user_reputation 1).reputation_score + 50 }) ∧
    (finalize_question 0 2 tieQuestion cexBank
        (initialize_user_reputation 1)).1 = none ∧
    (finalize_question 0 2 tieQuestion cexBank
        (initialize_user_reputation 1)).2.1 =
      { tieQuestion with status := .Rejected } :=
  ⟨(finalize_question_decision 0 2 fourVoteQuestion cexBank
      (initialize_user_reputation 1) (by decide) (by decide) (by decide)).1
      (by decide),
   (finalize_question_decision 0 2 approvableQuestion cexBank
      (initialize_user_reputation 1) (by decide) (by decide) (by decide)).2.1
      (by decide) (by decide),
   ((finalize_question_decision 0 2 tieQuestion cexBank
      (initialize_user_reputation 1) (by decide) (by decide) (by decide)).2.2
      (by decide) (by decide)).1,
   ((finalize_question_decision 0 2 tieQuestion cexBank
      (initialize_user_reputation 1) (by decide) (by decide) (by decide)).2.2
      (by decide) (by decide)).2⟩

end QuestionBank

namespace QuestionBank

/-- C9: for every question, votes_approve + votes_reject equals the number
of voters after every successful vote: a newly submitted question satisfies
the equality (0 votes, no voters), a successful vote_on_question preserves
it, a failed vote_on_question leaves the question unchanged, and
finalize_question never changes votes_approve, votes_reject or voters. -/
theorem vote_count_invariant :
    (∀ (now : Int) (d : QuestionData) (submitter : PK)
        (bank : QuestionBankState) (rep : UserReputation) (q : Question),
      (submit_question now d submitter bank rep).2.1 = some q →
      q.votes_approve + q.votes_reject = q.voters.length) ∧
    (∀ (q : Question) (voter : PK) (rep : UserReputation) (vt : VoteType),
      (vote_on_question q voter rep vt).1 = none →
      q.votes_approve + q.votes_reject = q.voters.length →
      (vote_on_question q voter rep vt).2.1.votes_approve +
          (vote_on_question q voter rep vt).2.1.votes_reject =
        (vote_on_question q voter rep vt).2.1.voters.length) ∧
    (∀ (q : Question) (voter : PK) (rep : UserReputation) (vt : VoteType)
        (e : QuestionBankError) (q2 : Question) (rep2 : UserReputation),
      vote_on_question q voter rep vt = (some e, q2, rep2) → q2 = q) ∧
    (∀ (qid : Nat) (c : PK) (q : Question) (bank : QuestionBankState)
        (srep : UserReputation),
      (finalize_question qid c q bank srep).2.1.votes_approve =
          q.votes_approve ∧
        (finalize_question qid c q bank srep).2.1.votes_reject =
          q.votes_reject ∧
        (finalize_question qid c q bank srep).2.1.voters = q.voters) := by
  refine ⟨?_, ?_, ?_, ?_⟩
  · intro now d submitter bank rep q h
    unfold submit_question at h
    split_ifs at h <;>
      first
        | (simp at h; done)
        | (simp only [Option.some.injEq] at h; subst h; rfl)
  · intro q voter rep vt h hinv
    simp only [vote_on_question] at h ⊢
    split_ifs at h ⊢ <;>
      first
        | (simp at h; done)
        | (cases vt <;> (simp [List.length_append]; omega))
  · intro q voter rep vt e q2 rep2 h
    simp only [vote_on_question] at h
    split_ifs at h <;> simp_all
  · intro qid c q bank srep
    unfold finalize_question
    split_ifs <;> exact ⟨rfl, rfl, rfl⟩

theorem vote_count_invariant_witness :
    ((vote_on_question rejectableQuestion 7 (initialize_user_reputation 7)
        .Approve).2.1.votes_approve +
      (vote_on_question rejectableQuestion 7 (initialize_user_reputation 7)
        .Approve).2.1.votes_reject =
      (vote_on_question rejectableQuestion 7 (initialize_user_reputation 7)
        .Approve).2.1.voters.length) ∧
    ((vote_on_question rejectableQuestion 1 (initialize_user_reputation 1)
        .Approve).2.1 = rejectableQuestion) ∧
    ((⟨0, 3, "t", ["a", "b", "c", "d"], 0, "g", 1, 0, 0, [], .Pending, 0⟩ :
        Question).votes_approve +
      (⟨0, 3, "t", ["a", "b", "c", "d"], 0, "g", 1, 0, 0, [], .Pending, 0⟩ :
        Question).votes_reject =
      (⟨0, 3, "t", ["a", "b", "c", "d"], 0, "g", 1, 0, 0, [], .Pending, 0⟩ :
        Question).voters.length) :=
  ⟨vote_count_invariant.2.1 rejectableQuestion 7 (initialize_user_reputation 7)
      .Approve (by decide) (by decide),
   vote_count_invariant.2.2.1 rejectableQuestion 1
      (initialize_user_reputation 1) .Approve .CannotVoteOnOwnQuestion
      (vote_on_question rejectableQuestion 1 (initialize_user_reputation 1)
        .Approve).2.1
      (vote_on_question rejectableQuestion 1 (initialize_user_reputation 1)
        .Approve).2.2
      (by decide),
   vote_count_invariant.1 0 ⟨"t", ["a", "b", "c", "d"], 0, "g", 1⟩ 3 cexBank
      (initialize_user_reputation 3)
      ⟨0, 3, "t", ["a", "b", "c", "d"], 0, "g", 1, 0, 0, [], .Pending, 0⟩
      (by decide)⟩

end QuestionBank

namespace RewardDistributor

/-- C8: the claimable-amount computation total_eligible - amount_claimed in
claim_rewards and get_claimable_amount carries no guard of its own: it is
safe exactly under the precondition amount_claimed ≤ total_eligible (then
get_claimable_amount returns the difference and claim_rewards never hits the
underflow abort), and the reachable trace dropPool → calculate (seed 5) →
claim → calculate (seed 15) produces a claim record with total_eligible <
amount_claimed on which both computations hit the u64 underflow abort. -/
theorem claimable_underflow :
    (∀ (pid : Nat) (pool : RewardPool) (uc : UserClaim),
      ¬ uc.pool = 0 → pool.id = pid →
      uc.amount_claimed ≤ uc.total_eligible →
      get_claimable_amount pid pool uc =
        (none, uc.total_eligible - uc.amount_claimed)) ∧
    (∀ (now : Int) (pid : Nat) (pool : RewardPool) (user : PK)
        (uc : UserClaim),
      uc.amount_claimed ≤ uc.total_eligible →
      ¬ (claim_rewards now pid pool user uc).1 = some .ArithmeticUnderflow) ∧
    (traceClaim3 =
        (calculate_user_rewards 30 1 (seedInput 15) tracePool2 5
          traceClaim2).2.1 ∧
      traceClaim3.total_eligible < traceClaim3.amount_claimed ∧
      get_claimable_amount 1 tracePool2 traceClaim3 =
        (some .ArithmeticUnderflow, 0) ∧
      (claim_rewards 40 1 tracePool2 5 traceClaim3).1 =
        some .ArithmeticUnderflow) := by
  refine ⟨?_, ?_, by decide⟩
  · intro pid pool uc h1 h2 h3
    have h4 : ¬ uc.total_eligible < uc.amount_claimed := by omega
    unfold get_claimable_amount
    rw [if_neg (not_not_intro h2), if_neg h1, if_neg h4]
  · intro now pid pool user uc hle
    simp only [claim_rewards]
    split_ifs <;>
      first
        | omega
        | simp
        | (split <;> simp)

theorem claimable_underflow_witness :
    get_claimable_amount 1 tracePool2 traceClaim2 =
      (none, traceClaim2.total_eligible - traceClaim2.amount_claimed) ∧
    ¬ (claim_rewards 25 1 tracePool2 5 traceClaim2).1 =
      some .ArithmeticUnderflow :=
  ⟨claimable_underflow.1 1 tracePool2 traceClaim2 (by decide) (by decide)
      (by decide),
   claimable_underflow.2.1 25 1 tracePool2 5 traceClaim2 (by decide)⟩

end RewardDistributor

namespace RewardDistributor

/-- C7 counterexample: create_reward_pool with reward type NFT and
initial_funding 1 returns NFTFundingUnsupported, but in the instruction body
the error is raised only after the new pool record has been written (the raw
execution carries a written pool record, not the absent pre-call record):
the operation is not structured validate-then-commit, and its atomicity on
this path rests on the runtime transaction revert. -/
theorem create_pool_partial_write_cex :
    (create_reward_pool 0 nftPoolData 1 9 8).1 = some .NFTFundingUnsupported ∧
    ¬ (create_reward_pool 0 nftPoolData 1 9 8).2 = none := by
  decide

set_option maxHeartbeats 1000000 in
/-- C7 amended: every listed operation on existing records is
validate-then-commit — whenever it returns an error, each record it touches
is returned exactly as it received it — and vote_on_question runs its checks
in the order pending-check, self-vote, duplicate-check; create_reward_pool's
four validation errors also occur before the new pool record is written, but
its funding-path errors (MissingTokenMint, NFTFundingUnsupported) are raised
only after the pool record is written, so for those two errors atomicity is
provided by the runtime transaction revert rather than by the instruction
body's structure. -/
theorem allOrNothing_error_paths :
    (∀ (now : Int) (d : QuestionBank.QuestionData)
        (submitter : QuestionBank.PK) (bank : QuestionBank.QuestionBankState)
        (rep : QuestionBank.UserReputation)
        (e : QuestionBank.QuestionBankError)
        (oq : Option QuestionBank.Question)
        (bank2 : QuestionBank.QuestionBankState)
        (rep2 : QuestionBank.UserReputation),
      QuestionBank.submit_question now d submitter bank rep =
        (some e, oq, bank2, rep2) →
      oq = none ∧ bank2 = bank ∧ rep2 = rep) ∧
    (∀ (q : QuestionBank.Question) (voter : QuestionBank.PK)
        (rep : QuestionBank.UserReputation) (vt : QuestionBank.VoteType)
        (e : QuestionBank.QuestionBankError) (q2 : QuestionBank.Question)
        (rep2 : QuestionBank.UserReputation),
      QuestionBank.vote_on_question q voter rep vt = (some e, q2, rep2) →
      q2 = q ∧ rep2 = rep) ∧
    (∀ (q : QuestionBank.Question) (voter : QuestionBank.PK)
        (rep : QuestionBank.UserReputation) (vt : QuestionBank.VoteType),
      (¬ q.status = .Pending →
        (QuestionBank.vote_on_question q voter rep vt).1 =
          some .QuestionNotPending) ∧
      (q.status = .Pending → q.submitter = voter →
        (QuestionBank.vote_on_question q voter rep vt).1 =
          some .CannotVoteOnOwnQuestion) ∧
      (q.status = .Pending → ¬ q.submitter = voter → voter ∈ q.voters →
        (QuestionBank.vote_on_question q voter rep vt).1 =
          some .AlreadyVoted)) ∧
    (∀ (qid : Nat) (c : QuestionBank.PK) (q : QuestionBank.Question)
        (bank : QuestionBank.QuestionBankState)
        (srep : QuestionBank.UserReputation)
        (e : QuestionBank.QuestionBankError) (q2 : QuestionBank.Question)
        (bank2 : QuestionBank.QuestionBankState)
        (srep2 : QuestionBank.UserReputation),
      QuestionBank.finalize_question qid c q bank srep =
        (some e, q2, bank2, srep2) →
      q2 = q ∧ bank2 = bank ∧ srep2 = srep) ∧
    (∀ (caller nc : QuestionBank.PK) (bank : QuestionBank.QuestionBankState)
        (e : QuestionBank.QuestionBankError)
        (bank2 : QuestionBank.QuestionBankState),
      QuestionBank.add_curator caller nc bank = (some e, bank2) →
      bank2 = bank) ∧
    (∀ (caller c : QuestionBank.PK) (bank : QuestionBank.QuestionBankState)
        (e : QuestionBank.QuestionBankError)
        (bank2 : QuestionBank.QuestionBankState),
      QuestionBank.remove_curator caller c bank = (some e, bank2) →
      bank2 = bank) ∧
    (∀ (pid amount : Nat) (pool : RewardPool) (e : RewardDistributorError)
        (pool2 : RewardPool),
      fund_reward_pool pid amount pool = (some e, pool2) → pool2 = pool) ∧
    (∀ (now : Int) (pid : Nat) (p : PerformanceData) (pool : RewardPool)
        (user : PK) (uc : UserClaim) (e : RewardDistributorError)
        (uc2 : UserClaim) (v : Nat),
      calculate_user_rewards now pid p pool user uc = (some e, uc2, v) →
      uc2 = uc ∧ v = 0) ∧
    (∀ (now : Int) (pid : Nat) (pool : RewardPool) (user : PK)
        (uc : UserClaim) (e : RewardDistributorError) (pool2 : RewardPool)
        (uc2 : UserClaim),
      claim_rewards now pid pool user uc = (some e, pool2, uc2) →
      pool2 = pool ∧ uc2 = uc) ∧
    (∀ (now : Int) (pid : Nat) (nc : DistributionType) (caller : PK)
        (pool : RewardPool) (e : RewardDistributorError) (pool2 : RewardPool),
      update_distribution_criteria now pid nc caller pool = (some e, pool2) →
      pool2 = pool) ∧
    (∀ (now : Int) (pid : Nat) (caller : PK) (pool : RewardPool)
        (e : RewardDistributorError) (pool2 : RewardPool) (t : Nat),
      close_reward_pool now pid caller pool = (some e, pool2, t) →
      pool2 = pool ∧ t = 0) ∧
    (∀ (now : Int) (d : CreateRewardPoolData) (f : Nat) (a k : PK)
        (e : RewardDistributorError) (op2 : Option RewardPool),
      create_reward_pool now d f a k = (some e, op2) →
      ¬ e = .MissingTokenMint → ¬ e = .NFTFundingUnsupported →
      op2 = none) := by
  refine ⟨?_, ?_, ?_, ?_, ?_, ?_, ?_, ?_, ?_, ?_, ?_, ?_⟩
  · intro now d submitter bank rep e oq bank2 rep2 h
    unfold QuestionBank.submit_question at h
    split_ifs at h <;> simp_all
  · intro q voter rep vt e q2 rep2 h
    simp only [QuestionBank.vote_on_question] at h
    split_ifs at h <;> simp_all
  · intro q voter rep vt
    refine ⟨?_, ?_, ?_⟩
    · intro h1
      simp only [QuestionBank.vote_on_question]
      rw [if_pos h1]
    · intro h1 h2
      simp only [QuestionBank.vote_on_question]
      rw [if_neg (not_not_intro h1), if_pos h2]
    · intro h1 h2 h3
      simp only [QuestionBank.vote_on_question]
      rw [if_neg (not_not_intro h1), if_neg h2, if_pos h3]
  · intro qid c q bank srep e q2 bank2 srep2 h
    unfold QuestionBank.finalize_question at h
    split_ifs at h <;> simp_all
  · intro caller nc bank e bank2 h
    unfold QuestionBank.add_curator at h
    split_ifs at h <;> simp_all
  · intro caller c bank e bank2 h
    unfold QuestionBank.remove_curator at h
    split_ifs at h <;> simp_all
  · intro pid amount pool e pool2 h
    unfold fund_reward_pool at h
    split_ifs at h <;>
      first
        | (simp_all; done)
        | (cases hrt : pool.reward_type <;> simp only [hrt] at h <;> simp_all)
  · intro now pid p pool user uc e uc2 v h
    simp only [calculate_user_rewards] at h
    split_ifs at h <;> simp_all
  · intro now pid pool user uc e pool2 uc2 h
    simp only [claim_rewards] at h
    split_ifs at h <;>
      first
        | (simp_all; done)
        | (cases hrt : pool.reward_type <;> simp only [hrt] at h <;> simp_all)
  · intro now pid nc caller pool e pool2 h
    unfold update_distribution_criteria at h
    split_ifs at h <;> simp_all
  · intro now pid caller pool e pool2 t h
    simp only [close_reward_pool] at h
    split_ifs at h <;> rw [Prod.mk.injEq, Prod.mk.injEq] at h <;>
      first
        | exact ⟨h.2.1.symm, h.2.2.symm⟩
        | exact absurd h.1 (by simp)
  · intro now d f a k e op2 h he1 he2
    unfold create_reward_pool at h
    cases hrt : d.reward_type <;> simp only [hrt] at h <;>
      split_ifs at h <;> rw [Prod.mk.injEq] at h <;>
      first
        | exact h.2.symm
        | exact absurd (Option.some_inj.mp h.1).symm he1
        | exact absurd (Option.some_inj.mp h.1).symm he2
        | exact absurd h.1 (by simp)

theorem allOrNothing_error_paths_witness :
    ((QuestionBank.vote_on_question QuestionBank.rejectableQuestion 1
        (QuestionBank.initialize_user_reputation 1) .Approve).2.1 =
          QuestionBank.rejectableQuestion ∧
      (QuestionBank.vote_on_question QuestionBank.rejectableQuestion 1
        (QuestionBank.initialize_user_reputation 1) .Approve).2.2 =
          QuestionBank.initialize_user_reputation 1) ∧
    (QuestionBank.vote_on_question QuestionBank.rejectableQuestion 1
        (QuestionBank.initialize_user_reputation 1) .Approve).1 =
      some .CannotVoteOnOwnQuestion ∧
    (fund_reward_pool 1 5 closablePoolAfter).2 = closablePoolAfter ∧
    (create_reward_pool 50 nftPoolData 0 9 8).2 = none :=
  ⟨allOrNothing_error_paths.2.1 QuestionBank.rejectableQuestion 1
      (QuestionBank.initialize_user_reputation 1) .Approve
      .CannotVoteOnOwnQuestion
      (QuestionBank.vote_on_question QuestionBank.rejectableQuestion 1
        (QuestionBank.initialize_user_reputation 1) .Approve).2.1
      (QuestionBank.vote_on_question QuestionBank.rejectableQuestion 1
        (QuestionBank.initialize_user_reputation 1) .Approve).2.2
      (by decide),
   (allOrNothing_error_paths.2.2.1 QuestionBank.rejectableQuestion 1
      (QuestionBank.initialize_user_reputation 1) .Approve).2.1
      (by decide) (by decide),
   allOrNothing_error_paths.2.2.2.2.2.2.1 1 5 closablePoolAfter .PoolNotActive
      (fund_reward_pool 1 5 closablePoolAfter).2 (by decide),
   allOrNothing_error_paths.2.2.2.2.2.2.2.2.2.2.2 50 nftPoolData 0 9 8
      .InvalidStartTime (create_reward_pool 50 nftPoolData 0 9 8).2
      (by decide) (by decide) (by decide)⟩

end RewardDistributor
